import Mathlib

/-!
Shallow embedding of `src/bot.py` (a Telegram music-recognition / media-download
bot).  Pure fragments of the Python code become Lean functions; the effectful
handlers become functions from an explicit environment (outcomes of the
external downloads / uploads) to a trace of observable events plus the final
filesystem state.  Machine integers are `Nat`; wall-clock times are `ℚ`.
-/

namespace Bot

/-! ### Audio Normalizer — `process_audio_for_recognition` (bot.py lines 72-118)

A pydub `AudioSegment` is abstracted by the attributes the function reads and
writes: duration in milliseconds (`len(audio)`), channel count, frame rate.
`audio.normalize()` only changes gain, none of these attributes.  Slicing
`audio[a:b]` is millisecond slicing with Python's clamping semantics. -/

structure AudioSeg where
  durationMs : Nat
  channels : Nat
  frameRate : Nat
  deriving DecidableEq, Repr

/-- Length of the Python slice `xs[a:b]` (0 ≤ a ≤ b) of a sequence of length
`len`: indices are clamped to `len`. -/
def pySliceLen (len a b : Nat) : Nat := min b len - min a len

/-- The exported MP3: attributes of the written output file. -/
structure Mp3Output where
  durationMs : Nat
  channels : Nat
  frameRate : Nat
  bitrateKbps : Nat
  fmt : String
  deriving DecidableEq, Repr

/-- Middle-window trim (bot.py 82-89): when `duration_ms > max_duration_ms`, slice
`audio[start_time : start_time + max_duration_ms]` with
`start_time = (duration_ms - max_duration_ms) // 2`.  Returns the trimmed
segment together with `start_time` (0 when no trim happens). -/
def trimMiddle (a : AudioSeg) (maxDurationMs : Nat) : AudioSeg × Nat :=
  if a.durationMs > maxDurationMs then
    let s := (a.durationMs - maxDurationMs) / 2
    ({ a with durationMs := pySliceLen a.durationMs s (s + maxDurationMs) }, s)
  else (a, 0)

/-- Downmix (bot.py 96-98): `set_channels(1)` when `audio.channels > 1`. -/
def toMono (a : AudioSeg) : AudioSeg :=
  if a.channels > 1 then { a with channels := 1 } else a

/-- Resample (bot.py 101-103): `set_frame_rate(44100)` when `audio.frame_rate != 44100`. -/
def resample (a : AudioSeg) : AudioSeg :=
  if a.frameRate ≠ 44100 then { a with frameRate := 44100 } else a

/-- Full normalizer `process_audio_for_recognition` (bot.py 72-118), returning the output
attributes together with the trim start offset.  Steps, in source order:
middle-window trim when `duration_ms > MAX_SECONDS * 1000`; `normalize()`
(gain only, no modelled attribute changes); `set_channels(1)` when
`channels > 1`; `set_frame_rate(44100)` when `frame_rate != 44100`;
`export(format="mp3", bitrate="192k")`. -/
def process_audio_for_recognition (a : AudioSeg) (maxSeconds : Nat) :
    Mp3Output × Nat :=
  let t := trimMiddle a (maxSeconds * 1000)
  let a4 := resample (toMono t.1)
  ({ durationMs := a4.durationMs, channels := a4.channels,
     frameRate := a4.frameRate, bitrateKbps := 192, fmt := "mp3" }, t.2)

/-! ### Recognition Client — AudD response handling (bot.py lines 230-296)

The HTTP response is abstracted by its status code and (when 200) its parsed
JSON body.  Python truthiness: `result.get("result")` is falsy both when the
key is absent and when it is an empty object — both are modelled as `none`.
The nested link probing (`song.get("spotify") and song["spotify"]
.get("external_urls", {}).get("spotify")` and the analogous Apple Music /
Deezer chains) is flattened to one `Option String` per provider holding the
final URL when every step of the chain succeeds. -/

structure AuddSong where
  title : Option String
  artist : Option String
  album : Option String
  releaseDate : Option String
  spotifyUrl : Option String
  appleMusicUrl : Option String
  deezerUrl : Option String
  deriving DecidableEq, Repr

structure AuddBody where
  status : Option String
  result : Option AuddSong
  errorMessage : Option String
  errorCode : Option String
  deriving DecidableEq, Repr

structure AuddResponse where
  statusCode : Nat
  body : AuddBody
  deriving DecidableEq, Repr

def tooManyText : String := "⚠️ Too many requests. Please wait a moment and try again."

def httpErrorText (code : Nat) : String :=
  "⚠️ Music recognition service error (HTTP " ++ toString code ++ "). Please try again later."

def notRecognizedText : String :=
  "😅 **Song not recognized**\n\n💡 **Tips for better recognition:**\n• Use a clearer/longer audio clip\n• Try popular songs\n• Avoid background noise\n• Send the chorus part if possible"

/-- Test that `bs` starts `as` (character lists). -/
def charsStartWith : List Char → List Char → Bool
  | _, [] => true
  | [], _ :: _ => false
  | a :: as, b :: bs => a = b && charsStartWith as bs

/-- `needle` occurs as a contiguous sublist of `haystack`. -/
def charsContain : List Char → List Char → Bool
  | [], needle => needle.isEmpty
  | a :: as, needle => charsStartWith (a :: as) needle || charsContain as needle

/-- Python substring containment, `needle in haystack`. -/
def containsSubstr (haystack needle : String) : Bool :=
  charsContain haystack.data needle.data

/-- Python `s.endswith(suffix)`. -/
def strEndsWith (s suffix : String) : Bool :=
  charsStartWith s.data.reverse suffix.data.reverse

/-- Streaming links block (bot.py 259-268). -/
def songLinks (s : AuddSong) : List String :=
  (match s.spotifyUrl with
   | some u => ["🎧 [Spotify](" ++ u ++ ")"]
   | none => []) ++
  (match s.appleMusicUrl with
   | some u => ["🍎 [Apple Music](" ++ u ++ ")"]
   | none => []) ++
  (match s.deezerUrl with
   | some u => ["🎼 [Deezer](" ++ u ++ ")"]
   | none => [])

/-- Reply text for a recognized song (bot.py 244-273). -/
def buildSongReply (s : AuddSong) : String :=
  let title := s.title.getD "Unknown Title"
  let artist := s.artist.getD "Unknown Artist"
  let album := s.album.getD ""
  let releaseDate := s.releaseDate.getD ""
  let r0 := "🎵 **" ++ title ++ "**\n👨‍🎤 **" ++ artist ++ "**"
  let r1 := if album ≠ "" then r0 ++ "\n💿 Album: *" ++ album ++ "*" else r0
  let r2 := if releaseDate ≠ "" then r1 ++ "\n📅 Released: " ++ releaseDate else r1
  let ls := songLinks s
  if ls ≠ [] then r2 ++ "\n\n" ++ String.intercalate "\n" ls
  else r2 ++ "\n\n🔍 Search: `" ++ title ++ " " ++ artist ++ "`"

/-- Reply text when the API body status is not "success" (bot.py 283-296). -/
def apiErrorReply (b : AuddBody) : String :=
  let errMsg := b.errorMessage.getD "Unknown error"
  let errCode := b.errorCode.getD "N/A"
  if containsSubstr errMsg.toLower "insufficient" || containsSubstr errMsg.toLower "limit" then
    "⚠️ **API limit reached**\n\nThe music recognition service has reached its daily limit. Please try again tomorrow."
  else if containsSubstr errMsg.toLower "invalid" then
    "⚠️ **Invalid audio format**\n\nPlease try with a different audio file."
  else
    "❌ **Recognition failed**\n\nError: " ++ errMsg ++ " (Code: " ++ errCode ++ ")"

/-- Outcome of the AudD-response section of `handle_media`: which user-facing
message is produced, and of which kind. -/
inductive MediaOutcome where
  | tooManyRequests (text : String)
  | serviceHttpError (code : Nat) (text : String)
  | songReply (text : String)
  | notRecognizedReply (text : String)
  | apiErrorReply (text : String)
  deriving DecidableEq, Repr

/-- Status-code checks, then JSON-body interpretation (bot.py 230-296). -/
def handle_media_response (r : AuddResponse) : MediaOutcome :=
  if r.statusCode = 429 then .tooManyRequests tooManyText
  else if r.statusCode ≠ 200 then .serviceHttpError r.statusCode (httpErrorText r.statusCode)
  else if r.body.status = some "success" then
    match r.body.result with
    | some song => .songReply (buildSongReply song)
    | none => .notRecognizedReply notRecognizedText
  else .apiErrorReply (apiErrorReply r.body)

/-- An error-kind outcome (as opposed to the two valid recognition outcomes,
a match or a not-recognized reply). -/
def isErrorOutcome : MediaOutcome → Bool
  | .tooManyRequests _ => true
  | .serviceHttpError _ _ => true
  | .apiErrorReply _ => true
  | .songReply _ => false
  | .notRecognizedReply _ => false

/-! ### `handle_media` pre-recognition size gate (bot.py lines 192-226)

After `process_audio_for_recognition` returns, the handler checks (in order):
processing success, output file presence, output file size ≥ 1024 bytes; only
then is the HTTP request to the recognition endpoint issued. -/

def tooSmallText : String :=
  "⚠️ Processed audio file is too small. Please try a longer audio clip."

inductive RecognitionGate where
  | processingFailed (text : String)
  | missingOutput (text : String)
  | tooSmall (text : String)
  | submitToApi
  deriving DecidableEq, Repr

def handle_media_gate (processOk : Bool) (outputOnDisk : Bool) (fileSize : Nat) :
    RecognitionGate :=
  if !processOk then
    .processingFailed "⚠️ Failed to process audio file. Please try a different format."
  else if !outputOnDisk then
    .missingOutput "⚠️ Audio processing failed. Please try again."
  else if fileSize < 1024 then .tooSmall tooSmallText
  else .submitToApi

/-! ### Media Fetcher / link handler — `handle_link_simple_progress`
(bot.py lines 331-590)

The handler is modelled as a function from the request URL and an environment
(the outcomes of the two yt-dlp download attempts and of the Telegram upload
calls) to a trace of observable events plus the list of files left on disk
under `downloads/`.  An exception raised anywhere inside the stage-1 `try`
body (download error, oversized file, missing file, failed upload) transfers
control to the single stage-2 (audio-only) attempt; an exception inside the
stage-2 `try` body ends the request with the platform-specific failure
message. -/

/-- Outcome of one yt-dlp invocation that did not raise: the path
`prepare_filename` returned, the size `os.path.getsize` would report, and
whether `os.path.exists(path)` holds. -/
structure FetchOutcome where
  path : String
  size : Nat
  onDisk : Bool
  deriving DecidableEq, Repr

/-- Environment for one link request: `stage1 = none` / `stage2 = none` mean
the corresponding `extract_info` call raised; `sendVideoOk` / `sendAudioOk`
tell whether the `reply_video` / `reply_document` / `reply_audio` call
succeeds. -/
structure LinkEnv where
  stage1 : Option FetchOutcome
  stage2 : Option FetchOutcome
  sendVideoOk : Bool
  sendAudioOk : Bool
  deriving DecidableEq, Repr

/-- Observable events of one link request, in order. -/
inductive Event where
  | statusNew (text : String)
  | statusEdit (text : String)
  | attempt (formatSelector : String)
  | sizeTooLargeEdit (sizeBytes : Nat)
  | sentVideo (path : String)
  | sentDocument (path : String)
  | sentAudio (path : String)
  | removed (path : String)
  | statusDeleted
  deriving DecidableEq, Repr

def preparingText : String := "📥 Preparing download..."
def extractingText : String := "🔍 **Extracting video information...**"
def initializingText : String := "📥 **Initializing download...**"
def uploadingVideoText : String := "📤 **Uploading to Telegram...**"
def videoFailedText : String := "⚠️ **Video failed. Trying audio...**"
def uploadingAudioText : String := "📤 **Uploading audio to Telegram...**"

/-- The domain allow-check at bot.py line 343. -/
def supportedDomains : List String :=
  ["instagram.com", "youtu.be", "youtube.com", "tiktok.com"]

def domainAccepted (url : String) : Bool :=
  supportedDomains.any (fun d => containsSubstr url d)

def instagramFormat : String := "best[ext=mp4]/best[height<=720]/best"
def tiktokFormat : String := "best[ext=mp4]/best"
def youtubeFormat : String :=
  "bestvideo[ext=mp4][filesize<100M]+bestaudio[ext=m4a]/best[ext=mp4][filesize<100M]/best[filesize<100M]"
def audioOnlyFormat : String := "bestaudio[ext=m4a]/bestaudio/best"

/-- Platform-specific `ydl_opts["format"]` selection (bot.py 448-480): the
`else` branch — the YouTube options — is the default for every accepted URL
that matches neither `instagram.com` nor `tiktok.com`. -/
def selectFormat (url : String) : String :=
  if containsSubstr url "instagram.com" then instagramFormat
  else if containsSubstr url "tiktok.com" then tiktokFormat
  else youtubeFormat

/-- Transport limit test `file_size / 1024 / 1024 > 50` (bot.py 504-507); the two float divisions
by powers of two are exact, so the check is `size > 50 * 2^20` exactly. -/
def telegramLimitBytes : Nat := 50 * 1024 * 1024

/-- Platform-specific terminal failure message (bot.py 565-590), shown when
the stage-2 attempt also fails. -/
def downloadFailedText (url : String) : String :=
  let base := "⚠️ **Download failed.**\n\n"
  if containsSubstr url "instagram.com" then
    base ++ "**Possible reasons:**\n• Private account or story\n• Content requires login\n• Instagram changed their API\n\n**Try:** Update with `pip install -U yt-dlp`"
  else if containsSubstr url "tiktok.com" then
    base ++ "**Possible reasons:**\n• Video is private or deleted\n• TikTok blocked the request\n• Try copying the link again"
  else
    base ++ "**Possible reasons:**\n• Video is private or deleted\n• Region restrictions\n• Platform changed their API"

/-- Stage 1 (bot.py 443-521): events, files on disk afterwards, and whether an
exception escaped the `try` body (which sends control to stage 2). -/
def stage1Run (url : String) (env : LinkEnv) :
    List Event × List String × Bool :=
  let pre : List Event :=
    [.statusEdit extractingText, .statusEdit initializingText,
     .attempt (selectFormat url)]
  match env.stage1 with
  | none => (pre, [], true)
  | some f =>
    let files := if f.onDisk then [f.path] else []
    let pre2 := pre ++ [.statusEdit uploadingVideoText]
    if f.onDisk then
      if f.size > telegramLimitBytes then
        (pre2 ++ [.sizeTooLargeEdit f.size], files, true)
      else if env.sendVideoOk then
        let sent : Event :=
          if strEndsWith f.path ".mp4" then .sentVideo f.path else .sentDocument f.path
        (pre2 ++ [sent, .removed f.path, .statusDeleted], files.erase f.path, false)
      else (pre2, files, true)
    else (pre2, files, true)

/-- Stage 2 fallback (bot.py 523-590): audio-only attempt; on any failure the
terminal error message is shown and no file is removed. -/
def stage2Run (url : String) (env : LinkEnv) (files0 : List String) :
    List Event × List String :=
  let pre : List Event := [.statusEdit videoFailedText, .attempt audioOnlyFormat]
  match env.stage2 with
  | none => (pre ++ [.statusEdit (downloadFailedText url)], files0)
  | some f =>
    let files := files0 ++ (if f.onDisk then [f.path] else [])
    let pre2 := pre ++ [.statusEdit uploadingAudioText]
    if f.onDisk then
      if env.sendAudioOk then
        (pre2 ++ [.sentAudio f.path, .removed f.path, .statusDeleted],
         files.erase f.path)
      else (pre2 ++ [.statusEdit (downloadFailedText url)], files)
    else (pre2 ++ [.statusEdit (downloadFailedText url)], files)

/-- Whole link handler `handle_link_simple_progress` (bot.py 331-590): a URL containing none of
the four supported domains is ignored before any status message; otherwise
stage 1 runs, and stage 2 runs exactly when an exception escaped stage 1. -/
def handle_link_simple_progress (url : String) (env : LinkEnv) :
    List Event × List String :=
  if domainAccepted url then
    let s1 := stage1Run url env
    if s1.2.2 then
      let s2 := stage2Run url env s1.2.1
      (.statusNew preparingText :: s1.1 ++ s2.1, s2.2)
    else (.statusNew preparingText :: s1.1, s1.2.1)
  else ([], [])

def linkTrace (url : String) (env : LinkEnv) : List Event :=
  (handle_link_simple_progress url env).1

/-- Files created under `downloads/` during the request that are still on disk
after the handler returns. -/
def filesRemaining (url : String) (env : LinkEnv) : List String :=
  (handle_link_simple_progress url env).2

/-- Did an exception escape the stage-1 `try` body? -/
def stage1Failed (url : String) (env : LinkEnv) : Bool :=
  (stage1Run url env).2.2

/-- Does the stage-2 `try` body raise (download error, missing file, or failed
upload)? -/
def stage2Failed (env : LinkEnv) : Bool :=
  match env.stage2 with
  | none => true
  | some f => !f.onDisk || !env.sendAudioOk

def isAttemptEv : Event → Bool
  | .attempt _ => true
  | _ => false

def isAudioAttemptEv : Event → Bool
  | .attempt s => s = audioOnlyFormat
  | _ => false

def isVideoUploadEv : Event → Bool
  | .sentVideo _ => true
  | .sentDocument _ => true
  | _ => false

def totalAttempts (t : List Event) : Nat := t.countP isAttemptEv
def audioAttempts (t : List Event) : Nat := t.countP isAudioAttemptEv

/-! ### Progress hook — `progress_hook` (bot.py lines 357-435)

State: `progress_data["last_update"]` (initially 0).  A `downloading` call
within strictly less than one second of `last_update` returns without any
side effect; otherwise `last_update` is set to the call's time and, when
`asyncio.get_running_loop()` succeeds, one status-update task is created
(progress bar when a total size is known, spinner otherwise).  A `finished`
call creates its task unthrottled and leaves `last_update` unchanged. -/

structure HookCall where
  time : ℚ
  status : String
  totalBytes : Nat
  downloadedBytes : Nat
  speed : ℚ
  loopOk : Bool

inductive EmitKind where
  | bar
  | spinner
  | finishedMsg
  deriving DecidableEq, Repr

/-- One invocation of `progress_hook`: new `last_update` and the emitted
status updates (0 or 1). -/
def progress_hook (lastUpdate : ℚ) (c : HookCall) : ℚ × List (ℚ × EmitKind) :=
  if c.status = "downloading" then
    if c.time - lastUpdate < 1 then (lastUpdate, [])
    else if c.loopOk then
      if c.totalBytes > 0 then (c.time, [(c.time, .bar)])
      else (c.time, [(c.time, .spinner)])
    else (c.time, [])
  else if c.status = "finished" then
    (lastUpdate, if c.loopOk then [(c.time, .finishedMsg)] else [])
  else (lastUpdate, [])

/-- Run the hook over a sequence of invocations. -/
def hookRun : ℚ → List HookCall → ℚ × List (ℚ × EmitKind)
  | lu, [] => (lu, [])
  | lu, c :: cs =>
    let s := progress_hook lu c
    let r := hookRun s.1 cs
    (r.1, s.2 ++ r.2)

/-- The user-visible updates for `downloading` events (bar or spinner). -/
def dlEmits (es : List (ℚ × EmitKind)) : List (ℚ × EmitKind) :=
  es.filter (fun e => e.2 ≠ EmitKind.finishedMsg)


/-! ## Theorems -/

lemma trimMiddle_channels (a : AudioSeg) (m : Nat) :
    (trimMiddle a m).1.channels = a.channels := by
  unfold trimMiddle; split <;> rfl

lemma toMono_durationMs (a : AudioSeg) : (toMono a).durationMs = a.durationMs := by
  unfold toMono; split <;> rfl

lemma resample_durationMs (a : AudioSeg) : (resample a).durationMs = a.durationMs := by
  unfold resample; split <;> rfl

lemma resample_channels (a : AudioSeg) : (resample a).channels = a.channels := by
  unfold resample; split <;> rfl

lemma toMono_channels (a : AudioSeg) (h : 1 ≤ a.channels) : (toMono a).channels = 1 := by
  unfold toMono; split
  · rfl
  · omega

lemma resample_frameRate (a : AudioSeg) : (resample a).frameRate = 44100 := by
  unfold resample; split
  · rfl
  · omega

/-- C4: an input longer than the configured maximum is trimmed to exactly the
maximum, starting at offset `(originalDuration - maxDuration) / 2`; shorter
inputs keep their duration and are not shifted. -/
theorem normalizer_centered_trim (a : AudioSeg) (maxSeconds : Nat) :
    (a.durationMs > maxSeconds * 1000 →
      (process_audio_for_recognition a maxSeconds).1.durationMs = maxSeconds * 1000 ∧
      (process_audio_for_recognition a maxSeconds).2 =
        (a.durationMs - maxSeconds * 1000) / 2) ∧
    (a.durationMs ≤ maxSeconds * 1000 →
      (process_audio_for_recognition a maxSeconds).1.durationMs = a.durationMs ∧
      (process_audio_for_recognition a maxSeconds).2 = 0) := by
  have hdur : (process_audio_for_recognition a maxSeconds).1.durationMs
      = (trimMiddle a (maxSeconds * 1000)).1.durationMs := by
    show (resample (toMono _)).durationMs = _
    rw [resample_durationMs, toMono_durationMs]
  have hstart : (process_audio_for_recognition a maxSeconds).2
      = (trimMiddle a (maxSeconds * 1000)).2 := rfl
  constructor
  · intro h
    rw [hdur, hstart]
    unfold trimMiddle
    rw [if_pos h]
    unfold pySliceLen
    constructor
    · show min _ _ - min _ _ = _
      omega
    · rfl
  · intro h
    rw [hdur, hstart]
    unfold trimMiddle
    rw [if_neg (by omega)]
    exact ⟨rfl, rfl⟩

/-- C4 witness: a 40 s clip with max 18 s becomes exactly 18 s starting at
11 s; a 10 s clip with max 18 s is untouched. -/
theorem normalizer_centered_trim_witness :
    ((process_audio_for_recognition ⟨40000, 2, 48000⟩ 18).1.durationMs = 18000 ∧
      (process_audio_for_recognition ⟨40000, 2, 48000⟩ 18).2 = 11000) ∧
    ((process_audio_for_recognition ⟨10000, 2, 48000⟩ 18).1.durationMs = 10000 ∧
      (process_audio_for_recognition ⟨10000, 2, 48000⟩ 18).2 = 0) :=
  ⟨(normalizer_centered_trim ⟨40000, 2, 48000⟩ 18).1 (by decide),
   (normalizer_centered_trim ⟨10000, 2, 48000⟩ 18).2 (by decide)⟩

/-- C5: for every input with at least one channel, the exported file is
single-channel, 44.1 kHz, 192 kbps MP3. -/
theorem normalizer_output_mono_44100 (a : AudioSeg) (maxSeconds : Nat)
    (h : 1 ≤ a.channels) :
    (process_audio_for_recognition a maxSeconds).1.channels = 1 ∧
    (process_audio_for_recognition a maxSeconds).1.frameRate = 44100 ∧
    (process_audio_for_recognition a maxSeconds).1.bitrateKbps = 192 ∧
    (process_audio_for_recognition a maxSeconds).1.fmt = "mp3" := by
  refine ⟨?_, ?_, rfl, rfl⟩
  · show (resample (toMono _)).channels = 1
    rw [resample_channels]
    apply toMono_channels
    rw [trimMiddle_channels]
    exact h
  · show (resample (toMono _)).frameRate = 44100
    exact resample_frameRate _

/-- C5 witness: a stereo 48 kHz input yields mono 44.1 kHz 192 kbps MP3. -/
theorem normalizer_output_mono_44100_witness :
    (process_audio_for_recognition ⟨5000, 2, 48000⟩ 30).1.channels = 1 ∧
    (process_audio_for_recognition ⟨5000, 2, 48000⟩ 30).1.frameRate = 44100 ∧
    (process_audio_for_recognition ⟨5000, 2, 48000⟩ 30).1.bitrateKbps = 192 ∧
    (process_audio_for_recognition ⟨5000, 2, 48000⟩ 30).1.fmt = "mp3" :=
  normalizer_output_mono_44100 ⟨5000, 2, 48000⟩ 30 (by decide)


lemma tooMany_ne_httpError (code : Nat) : tooManyText ≠ httpErrorText code := by
  intro h
  have hlen : 3 < "⚠️ Music recognition service error (HTTP ".data.length := by decide
  have hd : (httpErrorText code).data =
      ("⚠️ Music recognition service error (HTTP ".data ++ (toString code).data)
        ++ "). Please try again later.".data := by
    show (_ ++ _ ++ _ : String).data = _
    rw [String.data_append, String.data_append]
  have h3 : tooManyText.data[3]? = (httpErrorText code).data[3]? := by rw [h]
  rw [hd, List.getElem?_append_left (by rw [List.length_append]; omega),
    List.getElem?_append_left hlen] at h3
  exact absurd h3 (by decide)

/-- C6: HTTP 429 maps to the rate-limited outcome with its own message; any
other non-200 status maps to the generic HTTP-error outcome whose message
differs from the rate-limited one; in both cases the outcome is an error, so
no recognition result (match or not-recognized reply) is produced. -/
theorem recognition_http_status_mapping (r : AuddResponse) :
    (r.statusCode = 429 →
      handle_media_response r = .tooManyRequests tooManyText) ∧
    (r.statusCode ≠ 429 → r.statusCode ≠ 200 →
      handle_media_response r =
        .serviceHttpError r.statusCode (httpErrorText r.statusCode)) ∧
    (∀ code, tooManyText ≠ httpErrorText code) ∧
    (r.statusCode ≠ 200 → isErrorOutcome (handle_media_response r) = true) := by
  refine ⟨?_, ?_, tooMany_ne_httpError, ?_⟩
  · intro h
    unfold handle_media_response
    rw [if_pos h]
  · intro h429 h200
    unfold handle_media_response
    rw [if_neg h429, if_pos h200]
  · intro h200
    by_cases h429 : r.statusCode = 429
    · unfold handle_media_response
      rw [if_pos h429]
      rfl
    · unfold handle_media_response
      rw [if_neg h429, if_pos h200]
      rfl

/-- C6 witness: status 429 gives the rate-limited message, status 503 gives
the generic HTTP-error message, and the two messages differ. -/
theorem recognition_http_status_mapping_witness :
    handle_media_response ⟨429, ⟨none, none, none, none⟩⟩ =
      .tooManyRequests tooManyText ∧
    handle_media_response ⟨503, ⟨none, none, none, none⟩⟩ =
      .serviceHttpError 503 (httpErrorText 503) ∧
    tooManyText ≠ httpErrorText 503 ∧
    isErrorOutcome (handle_media_response ⟨503, ⟨none, none, none, none⟩⟩) = true :=
  ⟨(recognition_http_status_mapping ⟨429, ⟨none, none, none, none⟩⟩).1 rfl,
   (recognition_http_status_mapping ⟨503, ⟨none, none, none, none⟩⟩).2.1
     (by decide) (by decide),
   (recognition_http_status_mapping ⟨503, ⟨none, none, none, none⟩⟩).2.2.1 503,
   (recognition_http_status_mapping ⟨503, ⟨none, none, none, none⟩⟩).2.2.2
     (by decide)⟩

/-- C7: a 200 response whose body has status "success" and no result object
yields the not-recognized reply, which is not an error outcome. -/
theorem success_without_result_not_recognized (b : AuddBody)
    (hs : b.status = some "success") (hr : b.result = none) :
    handle_media_response ⟨200, b⟩ = .notRecognizedReply notRecognizedText ∧
    isErrorOutcome (handle_media_response ⟨200, b⟩) = false := by
  have h : handle_media_response ⟨200, b⟩ = .notRecognizedReply notRecognizedText := by
    simp [handle_media_response, hs, hr]
  exact ⟨h, by rw [h]; rfl⟩

/-- C7 witness: the concrete body `{status: "success"}` with no result maps to
the not-recognized reply. -/
theorem success_without_result_not_recognized_witness :
    handle_media_response ⟨200, ⟨some "success", none, none, none⟩⟩ =
      .notRecognizedReply notRecognizedText ∧
    isErrorOutcome (handle_media_response ⟨200, ⟨some "success", none, none, none⟩⟩)
      = false :=
  success_without_result_not_recognized ⟨some "success", none, none, none⟩ rfl rfl

/-- C10: a processed file smaller than 1024 bytes terminates the request with
the "too small" message; the recognition API is not contacted. -/
theorem tiny_processed_file_skips_api (n : Nat) (h : n < 1024) :
    handle_media_gate true true n = .tooSmall tooSmallText ∧
    handle_media_gate true true n ≠ .submitToApi := by
  have hg : handle_media_gate true true n = .tooSmall tooSmallText := by
    unfold handle_media_gate
    rw [if_neg (by decide), if_neg (by decide), if_pos h]
  refine ⟨hg, ?_⟩
  rw [hg]
  intro hc
  cases hc

/-- C10 witness: a 512-byte processed file is rejected before the API call. -/
theorem tiny_processed_file_skips_api_witness :
    handle_media_gate true true 512 = .tooSmall tooSmallText ∧
    handle_media_gate true true 512 ≠ .submitToApi :=
  tiny_processed_file_skips_api 512 (by decide)


lemma selectFormat_ne_audio (url : String) : selectFormat url ≠ audioOnlyFormat := by
  unfold selectFormat
  split_ifs <;> decide

lemma linkTrace_fallback (url : String) (env : LinkEnv)
    (hd : domainAccepted url = true) (h1 : stage1Failed url env = true) :
    linkTrace url env =
      .statusNew preparingText ::
        (stage1Run url env).1 ++ (stage2Run url env (stage1Run url env).2.1).1 := by
  unfold linkTrace handle_link_simple_progress
  unfold stage1Failed at h1
  simp [hd, h1]

lemma linkTrace_noFallback (url : String) (env : LinkEnv)
    (hd : domainAccepted url = true) (h1 : stage1Failed url env = false) :
    linkTrace url env = .statusNew preparingText :: (stage1Run url env).1 := by
  unfold linkTrace handle_link_simple_progress
  unfold stage1Failed at h1
  simp [hd, h1]

lemma stage1_attempts (url : String) (env : LinkEnv) :
    totalAttempts (stage1Run url env).1 = 1 ∧
    audioAttempts (stage1Run url env).1 = 0 := by
  have hne := selectFormat_ne_audio url
  unfold stage1Run totalAttempts audioAttempts
  rcases env.stage1 with _ | f
  · simp [List.countP_cons, isAttemptEv, isAudioAttemptEv, hne]
  · rcases hod : f.onDisk <;>
      by_cases hsz : f.size > telegramLimitBytes <;>
      rcases hsend : env.sendVideoOk <;>
      rcases hmp4 : strEndsWith f.path ".mp4" <;>
      simp [hod, hsz, hsend, hmp4, List.countP_cons, List.countP_append,
        isAttemptEv, isAudioAttemptEv, hne]

lemma stage2_attempts (url : String) (env : LinkEnv) (fs : List String) :
    totalAttempts (stage2Run url env fs).1 = 1 ∧
    audioAttempts (stage2Run url env fs).1 = 1 := by
  unfold stage2Run totalAttempts audioAttempts
  rcases env.stage2 with _ | f
  · simp [List.countP_cons, isAttemptEv, isAudioAttemptEv]
  · rcases hod : f.onDisk <;>
      rcases hsend : env.sendAudioOk <;>
      simp [hod, hsend, List.countP_cons, List.countP_append,
        isAttemptEv, isAudioAttemptEv]

lemma stage2_failed_last (url : String) (env : LinkEnv) (fs : List String)
    (h : stage2Failed env = true) :
    (stage2Run url env fs).1.getLast? =
      some (.statusEdit (downloadFailedText url)) := by
  unfold stage2Failed at h
  unfold stage2Run
  rcases hs : env.stage2 with _ | f
  · simp
  · rw [hs] at h
    rcases hod : f.onDisk <;> rcases hsend : env.sendAudioOk
    · simp [hod]
    · simp [hod]
    · simp [hod, hsend]
    · simp [hod, hsend] at h

/-- C1: whenever an exception escapes the stage-1 (video) try body, the trace
contains exactly one audio-only (stage-2) attempt and exactly two download
attempts in total; and when stage 2 also fails, the request ends with the
terminal failure message. -/
theorem stage1_failure_single_fallback (url : String) (env : LinkEnv)
    (hd : domainAccepted url = true) (h1 : stage1Failed url env = true) :
    audioAttempts (linkTrace url env) = 1 ∧
    totalAttempts (linkTrace url env) = 2 ∧
    (stage2Failed env = true →
      (linkTrace url env).getLast? =
        some (.statusEdit (downloadFailedText url))) := by
  rw [linkTrace_fallback url env hd h1]
  have hs1 := stage1_attempts url env
  have hs2 := stage2_attempts url env (stage1Run url env).2.1
  refine ⟨?_, ?_, ?_⟩
  · unfold audioAttempts at *
    simp [List.countP_cons, List.countP_append, isAudioAttemptEv, hs1.2, hs2.2]
  · unfold totalAttempts at *
    simp [List.countP_cons, List.countP_append, isAttemptEv, hs1.1, hs2.1]
  · intro h2
    have hlast := stage2_failed_last url env (stage1Run url env).2.1 h2
    have hne : (stage2Run url env (stage1Run url env).2.1).1 ≠ [] := by
      intro h
      rw [h] at hlast
      cases hlast
    rw [show (Event.statusNew preparingText ::
          (stage1Run url env).1 ++ (stage2Run url env (stage1Run url env).2.1).1)
        = (Event.statusNew preparingText :: (stage1Run url env).1)
          ++ (stage2Run url env (stage1Run url env).2.1).1 from rfl,
      List.getLast?_append_of_ne_nil _ hne]
    exact hlast

/-- C1 witness: a YouTube URL whose video and audio attempts both raise makes
exactly two attempts (one audio-only) and ends with the failure message. -/
theorem stage1_failure_single_fallback_witness :
    audioAttempts (linkTrace "https://youtube.com/watch?v=a" ⟨none, none, true, true⟩) = 1 ∧
    totalAttempts (linkTrace "https://youtube.com/watch?v=a" ⟨none, none, true, true⟩) = 2 ∧
    (stage2Failed ⟨none, none, true, true⟩ = true →
      (linkTrace "https://youtube.com/watch?v=a" ⟨none, none, true, true⟩).getLast? =
        some (.statusEdit (downloadFailedText "https://youtube.com/watch?v=a"))) :=
  stage1_failure_single_fallback "https://youtube.com/watch?v=a"
    ⟨none, none, true, true⟩ (by decide) (by decide)

/-- C8 counterexample: a URL from a domain with no configured profile
(`vimeo.com`) is not processed at all — the handler returns before any status
message or download attempt, so no generic profile is selected for it. -/
theorem unknown_domain_ignored :
    handle_link_simple_progress "https://vimeo.com/123"
      ⟨some ⟨"downloads/v.mp4", 1000, true⟩, none, true, true⟩ = ([], []) ∧
    totalAttempts (linkTrace "https://vimeo.com/123"
      ⟨some ⟨"downloads/v.mp4", 1000, true⟩, none, true, true⟩) = 0 := by
  constructor
  · decide
  · decide

lemma attempt_mem_stage1 (url : String) (env : LinkEnv) :
    Event.attempt (selectFormat url) ∈ (stage1Run url env).1 := by
  unfold stage1Run
  rcases env.stage1 with _ | f
  · simp
  · rcases hod : f.onDisk <;> by_cases hsz : f.size > telegramLimitBytes <;>
      rcases hsend : env.sendVideoOk <;>
      rcases hmp4 : strEndsWith f.path ".mp4" <;>
      simp [hod, hsz, hsend, hmp4]

/-- C8 amended: among URLs that pass the domain allow-check, any URL matching
neither `instagram.com` nor `tiktok.com` is processed with the default
(YouTube-branch) format selector, and the stage-1 attempt uses it. -/
theorem accepted_url_uses_default_profile (url : String) (env : LinkEnv)
    (hd : domainAccepted url = true)
    (hi : containsSubstr url "instagram.com" = false)
    (ht : containsSubstr url "tiktok.com" = false) :
    selectFormat url = youtubeFormat ∧
    Event.attempt youtubeFormat ∈ linkTrace url env := by
  have hsel : selectFormat url = youtubeFormat := by
    unfold selectFormat
    simp [hi, ht]
  refine ⟨hsel, ?_⟩
  have hmem := attempt_mem_stage1 url env
  rw [hsel] at hmem
  rcases h1 : stage1Failed url env
  · rw [linkTrace_noFallback url env hd h1]
    simp [hmem]
  · rw [linkTrace_fallback url env hd h1]
    simp [hmem]

/-- C8 amended witness: a `youtu.be` short link is accepted and downloaded
with the default selector. -/
theorem accepted_url_uses_default_profile_witness :
    selectFormat "https://youtu.be/abc" = youtubeFormat ∧
    Event.attempt youtubeFormat ∈
      linkTrace "https://youtu.be/abc" ⟨none, none, true, true⟩ :=
  accepted_url_uses_default_profile "https://youtu.be/abc" ⟨none, none, true, true⟩
    (by decide) (by decide) (by decide)

/-- C3 counterexample: a fetched 120 MB video (over the 50 MB transport limit)
does not end the request: the audio-only fallback is attempted (a retry), its
result is uploaded, and the request terminates successfully (status message
deleted), not in a failure message. -/
theorem oversize_retries_and_uploads :
    audioAttempts (linkTrace "https://youtube.com/watch?v=dQw"
      ⟨some ⟨"downloads/video.mp4", 125829120, true⟩,
       some ⟨"downloads/audio.m4a", 3145728, true⟩, true, true⟩) = 1 ∧
    Event.sentAudio "downloads/audio.m4a" ∈
      linkTrace "https://youtube.com/watch?v=dQw"
        ⟨some ⟨"downloads/video.mp4", 125829120, true⟩,
         some ⟨"downloads/audio.m4a", 3145728, true⟩, true, true⟩ ∧
    (linkTrace "https://youtube.com/watch?v=dQw"
      ⟨some ⟨"downloads/video.mp4", 125829120, true⟩,
       some ⟨"downloads/audio.m4a", 3145728, true⟩, true, true⟩).getLast? =
      some Event.statusDeleted := by
  refine ⟨by decide, by decide, by decide⟩

lemma stage1Run_oversize (url : String) (env : LinkEnv) (f : FetchOutcome)
    (hs : env.stage1 = some f) (hod : f.onDisk = true)
    (hsz : f.size > telegramLimitBytes) :
    stage1Run url env =
      ([.statusEdit extractingText, .statusEdit initializingText,
        .attempt (selectFormat url), .statusEdit uploadingVideoText,
        .sizeTooLargeEdit f.size], [f.path], true) := by
  unfold stage1Run
  rw [hs]
  simp [hod, hsz]

lemma stage2_no_video_upload (url : String) (env : LinkEnv) (fs : List String) :
    (stage2Run url env fs).1.countP isVideoUploadEv = 0 := by
  unfold stage2Run
  rcases env.stage2 with _ | f
  · simp [List.countP_cons, List.countP_append, isVideoUploadEv]
  · rcases hod : f.onDisk <;> rcases hsend : env.sendAudioOk <;>
      simp [hod, hsend, List.countP_cons, List.countP_append, isVideoUploadEv]

/-- C3 amended: when the stage-1 file exceeds the 50 MB transport limit, a
size-specific status is emitted and the video is never uploaded, but instead
of terminating, exactly one audio-only fallback attempt is made. -/
theorem oversize_skips_upload_then_falls_back (url : String) (env : LinkEnv)
    (f : FetchOutcome) (hd : domainAccepted url = true)
    (hs : env.stage1 = some f) (hod : f.onDisk = true)
    (hsz : f.size > telegramLimitBytes) :
    Event.sizeTooLargeEdit f.size ∈ linkTrace url env ∧
    (linkTrace url env).countP isVideoUploadEv = 0 ∧
    audioAttempts (linkTrace url env) = 1 := by
  have h1 : stage1Failed url env = true := by
    unfold stage1Failed
    rw [stage1Run_oversize url env f hs hod hsz]
  rw [linkTrace_fallback url env hd h1, stage1Run_oversize url env f hs hod hsz]
  refine ⟨by simp, ?_, ?_⟩
  · simp [List.countP_cons, List.countP_append, isVideoUploadEv,
      stage2_no_video_upload]
  · have h2 := (stage2_attempts url env [f.path]).2
    unfold audioAttempts at h2 ⊢
    simp [List.countP_cons, List.countP_append, isAudioAttemptEv,
      selectFormat_ne_audio url, h2]

/-- C3 amended witness: the concrete 120 MB fetch emits the size message, no
video upload, one audio attempt. -/
theorem oversize_skips_upload_then_falls_back_witness :
    Event.sizeTooLargeEdit 125829120 ∈
      linkTrace "https://youtube.com/watch?v=dQw"
        ⟨some ⟨"downloads/video.mp4", 125829120, true⟩, none, true, true⟩ ∧
    (linkTrace "https://youtube.com/watch?v=dQw"
      ⟨some ⟨"downloads/video.mp4", 125829120, true⟩, none, true, true⟩).countP
        isVideoUploadEv = 0 ∧
    audioAttempts (linkTrace "https://youtube.com/watch?v=dQw"
      ⟨some ⟨"downloads/video.mp4", 125829120, true⟩, none, true, true⟩) = 1 :=
  oversize_skips_upload_then_falls_back "https://youtube.com/watch?v=dQw"
    ⟨some ⟨"downloads/video.mp4", 125829120, true⟩, none, true, true⟩
    ⟨"downloads/video.mp4", 125829120, true⟩ (by decide) rfl rfl (by decide)

/-- C2 counterexample: after the oversized-fetch error path, the stage-1 file
is still on disk when the request terminates — cleanup does not run on this
error path. -/
theorem error_path_leaves_file :
    filesRemaining "https://youtube.com/watch?v=dQw"
      ⟨some ⟨"downloads/video.mp4", 125829120, true⟩,
       some ⟨"downloads/audio.m4a", 3145728, true⟩, true, true⟩ =
      ["downloads/video.mp4"] ∧
    filesRemaining "https://youtube.com/watch?v=dQw"
      ⟨some ⟨"downloads/video.mp4", 125829120, true⟩,
       some ⟨"downloads/audio.m4a", 3145728, true⟩, true, true⟩ ≠ [] := by
  refine ⟨by decide, by decide⟩

lemma stage1Run_success (url : String) (env : LinkEnv) (f : FetchOutcome)
    (hs : env.stage1 = some f) (hod : f.onDisk = true)
    (hsz : ¬ f.size > telegramLimitBytes) (hsend : env.sendVideoOk = true) :
    (stage1Run url env).2 = ([], false) := by
  unfold stage1Run
  rw [hs]
  rcases hmp4 : strEndsWith f.path ".mp4" <;>
    simp [hod, hsz, hsend, hmp4]

/-- C2 amended: when the stage-1 fetch succeeds within the size limit and the
upload succeeds, the downloaded file is removed — zero files remain. -/
theorem link_success_cleanup (url : String) (env : LinkEnv) (f : FetchOutcome)
    (hd : domainAccepted url = true) (hs : env.stage1 = some f)
    (hod : f.onDisk = true) (hsz : f.size ≤ telegramLimitBytes)
    (hsend : env.sendVideoOk = true) :
    filesRemaining url env = [] := by
  have hrun := stage1Run_success url env f hs hod (by omega) hsend
  have h22 : (stage1Run url env).2.2 = false := by rw [hrun]
  have h21 : (stage1Run url env).2.1 = [] := by rw [hrun]
  unfold filesRemaining handle_link_simple_progress
  simp [hd, h22, h21]

/-- C2 amended witness: a 10 MB video request removes its downloaded file. -/
theorem link_success_cleanup_witness :
    filesRemaining "https://youtube.com/watch?v=dQw"
      ⟨some ⟨"downloads/video.mp4", 10485760, true⟩, none, true, true⟩ = [] :=
  link_success_cleanup "https://youtube.com/watch?v=dQw"
    ⟨some ⟨"downloads/video.mp4", 10485760, true⟩, none, true, true⟩
    ⟨"downloads/video.mp4", 10485760, true⟩ (by decide) rfl rfl (by decide) rfl

lemma progress_hook_step (lu : ℚ) (c : HookCall) :
    ((progress_hook lu c).1 = lu ∧ dlEmits (progress_hook lu c).2 = []) ∨
    ((progress_hook lu c).1 = c.time ∧ lu + 1 ≤ c.time ∧
      (dlEmits (progress_hook lu c).2 = [] ∨
        ∃ k, dlEmits (progress_hook lu c).2 = [(c.time, k)])) := by
  unfold progress_hook
  split_ifs with h1 h2 h3 h4 h5
  · exact Or.inl ⟨rfl, rfl⟩
  · refine Or.inr ⟨rfl, by linarith [not_lt.mp h2], Or.inr ⟨EmitKind.bar, ?_⟩⟩
    simp [dlEmits]
  · refine Or.inr ⟨rfl, by linarith [not_lt.mp h2], Or.inr ⟨EmitKind.spinner, ?_⟩⟩
    simp [dlEmits]
  · exact Or.inr ⟨rfl, by linarith [not_lt.mp h2], Or.inl rfl⟩
  · exact Or.inl ⟨rfl, by simp [dlEmits]⟩
  · exact Or.inl ⟨rfl, rfl⟩
  · exact Or.inl ⟨rfl, rfl⟩

lemma hookRun_invariant (cs : List HookCall) :
    ∀ lu : ℚ,
      lu ≤ (hookRun lu cs).1 ∧
      (∀ e ∈ dlEmits (hookRun lu cs).2,
        lu + 1 ≤ e.1 ∧ e.1 ≤ (hookRun lu cs).1) ∧
      (dlEmits (hookRun lu cs).2).Chain' (fun a b => a.1 + 1 ≤ b.1) := by
  induction cs with
  | nil => intro lu; simp [hookRun, dlEmits]
  | cons c cs ih =>
    intro lu
    have hrun1 : (hookRun lu (c :: cs)).1 = (hookRun (progress_hook lu c).1 cs).1 := rfl
    have hrun2 : dlEmits (hookRun lu (c :: cs)).2 =
        dlEmits (progress_hook lu c).2 ++
          dlEmits (hookRun (progress_hook lu c).1 cs).2 := by
      show dlEmits ((progress_hook lu c).2 ++ (hookRun (progress_hook lu c).1 cs).2) = _
      rw [dlEmits, dlEmits, dlEmits, List.filter_append]
    obtain ⟨ih1, ih2, ih3⟩ := ih (progress_hook lu c).1
    rcases progress_hook_step lu c with ⟨ha, hb⟩ | ⟨ha, hab, hb⟩
    · rw [hrun1, hrun2, hb, ha]
      rw [ha] at ih1 ih2 ih3
      exact ⟨ih1, by simpa using ih2, by simpa using ih3⟩
    · rw [hrun1, hrun2, ha]
      rw [ha] at ih1 ih2 ih3
      have hmem : ∀ e ∈ dlEmits (hookRun c.time cs).2,
          lu + 1 ≤ e.1 ∧ e.1 ≤ (hookRun c.time cs).1 := by
        intro e he
        obtain ⟨h1e, h2e⟩ := ih2 e he
        exact ⟨by linarith, h2e⟩
      rcases hb with hb | ⟨k, hb⟩
      · rw [hb]
        exact ⟨by linarith, by simpa using hmem, by simpa using ih3⟩
      · rw [hb]
        refine ⟨by linarith, ?_, ?_⟩
        · intro e he
          rcases List.mem_append.mp he with he | he
          · have he' : e = (c.time, k) := by simpa using he
            rw [he']
            exact ⟨hab, ih1⟩
          · exact hmem e he
        · rw [show ((c.time, k) :: [] : List (ℚ × EmitKind)) ++
              dlEmits (hookRun c.time cs).2 =
              (c.time, k) :: dlEmits (hookRun c.time cs).2 from rfl,
            List.chain'_cons']
          refine ⟨?_, ih3⟩
          intro b hb'
          have hbmem : b ∈ dlEmits (hookRun c.time cs).2 :=
            List.mem_of_mem_head? hb'
          exact (ih2 b hbmem).1

/-- C9: over any sequence of hook invocations, consecutive user-visible
`downloading` status updates are at least one second apart; and a
`downloading` invocation strictly within one second of `last_update` returns
without emitting and without changing state. -/
theorem progress_updates_throttled :
    (∀ cs : List HookCall,
      (dlEmits (hookRun 0 cs).2).Chain' (fun a b => a.1 + 1 ≤ b.1)) ∧
    (∀ (lu : ℚ) (c : HookCall), c.status = "downloading" → c.time - lu < 1 →
      progress_hook lu c = (lu, [])) := by
  constructor
  · intro cs
    exact (hookRun_invariant cs 0).2.2
  · intro lu c hdl hth
    unfold progress_hook
    rw [if_pos hdl, if_pos hth]

/-- C9 witness: a `downloading` call 0.5 s after the last update is dropped,
and a concrete run's downloading updates are ≥ 1 s apart. -/
theorem progress_updates_throttled_witness :
    progress_hook 5 ⟨(11 : ℚ)/2, "downloading", 100, 10, 1, true⟩ = (5, []) ∧
    (dlEmits (hookRun 0
      [⟨2, "downloading", 100, 10, 1, true⟩,
       ⟨(5 : ℚ)/2, "downloading", 100, 20, 1, true⟩,
       ⟨4, "downloading", 100, 30, 1, true⟩]).2).Chain'
        (fun a b => a.1 + 1 ≤ b.1) :=
  ⟨progress_updates_throttled.2 5 ⟨(11 : ℚ)/2, "downloading", 100, 10, 1, true⟩
      rfl (by norm_num),
   progress_updates_throttled.1 _⟩

end Bot
